import Mathlib

/-!
# anari-amr-sample: the AMR-to-ANARI conversion of `main.cpp`

A shallow embedding of `src/main.cpp`:

* `generateScene` (the block tables, the `block.bounds` loop, the parameters
  bound to the `amr` spatial field and to the `transferFunction1D` volume),
* `deviceHasExtension` (the scan of a null-terminated array of C strings),
* `statusFunc` (the status callback).

Conventions of the embedding.

* `int` arithmetic is exact (`Int`): signed overflow is undefined in the source
  language, so the embedding describes the executions that stay in range.
* `size_t` and `unsigned` values are `Nat`.
* The `float` literals of the program (`0.f`, `0.5f`, `1.f`) are dyadic
  rationals that binary floating point represents exactly; they are embedded as
  the same numbers in `Rat`.  No floating-point arithmetic is performed by the
  program on them.
* The ANARI device is an external library.  An object handle is embedded as a
  record holding the parameters that the program binds to it, one record field
  per parameter name.
* An out-of-range element access (undefined in the source language) is `none`.
-/

namespace AmrSample

/-! ## Vector types (`anari::math`) -/

/-- Modelled from the spec: the type `anari::math::int3`, declared in the ANARI
math header and not in the program: an integer 3D coordinate with components
`x`, `y`, `z`. -/
structure int3 where
  x : Int
  y : Int
  z : Int
  deriving DecidableEq, Repr, Inhabited

/-- Modelled from the spec: the type `anari::math::int4`, declared in the ANARI
math header and not in the program: four integer components. -/
structure int4 where
  x : Int
  y : Int
  z : Int
  w : Int
  deriving DecidableEq, Repr, Inhabited

/-- Modelled from the spec: the type `anari::math::float3`, declared in the ANARI
math header and not in the program: one colour stop, three components. -/
structure float3 where
  x : Rat
  y : Rat
  z : Rat
  deriving DecidableEq, Repr, Inhabited

/-- Modelled from the spec: the type `anari::math::float2`, declared in the ANARI
math header and not in the program: the pair (min, max) of a value range. -/
structure float2 where
  x : Rat
  y : Rat
  deriving DecidableEq, Repr, Inhabited

/-- Modelled from the spec: the constructor `int3(s)` of the ANARI math header,
which sets every component to `s` (the `- 1` of `upper = origin + dims - 1`). -/
def int3.splat (s : Int) : int3 := ⟨s, s, s⟩

/-- Modelled from the spec: `operator+` on `int3` of the ANARI math header,
component-wise. -/
def int3.add (a b : int3) : int3 := ⟨a.x + b.x, a.y + b.y, a.z + b.z⟩

/-- Modelled from the spec: `operator-` on `int3` of the ANARI math header,
component-wise. -/
def int3.sub (a b : int3) : int3 := ⟨a.x - b.x, a.y - b.y, a.z - b.z⟩

instance : Add int3 := ⟨int3.add⟩
instance : Sub int3 := ⟨int3.sub⟩

/-- The local type `struct box3i { int3 lower, upper; }` of `generateScene`. -/
structure box3i where
  lower : int3
  upper : int3
  deriving DecidableEq, Repr, Inhabited

/-! ## The `block.bounds` loop (lines 125-129) -/

/-- One iteration of the loop body at index `i`:
`blockBounds[i].lower = blockStart[i];`
`blockBounds[i].upper = blockStart[i] + blockDims[i] - int3(1);` -/
def boundsStep (starts dims : List int3) (acc : Option (List box3i)) (i : Nat) :
    Option (List box3i) :=
  match acc, starts[i]?, dims[i]? with
  | some bs, some s, some d => some (bs.set i { lower := s, upper := s + d - int3.splat 1 })
  | _, _, _ => none

/-- The loop `for (size_t i = 0; i < blockBounds.size(); ++i)` over a vector
`blockBounds` that was created with `blockDims.size()` value-initialised
elements. -/
def boundsLoop (starts dims : List int3) : Option (List box3i) :=
  (List.range dims.length).foldl (boundsStep starts dims)
    (some (List.replicate dims.length default))

/-- Number of cells of a block: `dims.x * dims.y * dims.z`. -/
def cellCount (d : int3) : Int := d.x * d.y * d.z

/-! ## The scene objects -/

/-- The parameters bound to the `SpatialField` object of subtype `amr`. -/
structure SpatialField where
  subtype : String
  /-- Parameter `block.level` (`ANARI_INT32`). -/
  blockLevel : List Int
  /-- Parameter `refinementRatio` (`ANARI_UINT32`). -/
  refinementRatio : List Nat
  /-- Parameter `block.bounds` (`ANARI_INT32_BOX3`). -/
  blockBounds : List box3i
  /-- Parameter `data` (`ANARI_FLOAT32`). -/
  data : List Rat
  deriving DecidableEq, Repr

/-- The parameters bound to the `Volume` object of subtype `transferFunction1D`. -/
structure Volume where
  subtype : String
  /-- Parameter `value`. -/
  value : SpatialField
  /-- Parameter `color`. -/
  color : List float3
  /-- Parameter `opacity`. -/
  opacity : List Rat
  /-- Parameter `valueRange` (`ANARI_FLOAT32_BOX1`). -/
  valueRange : float2
  deriving DecidableEq, Repr

/-- The parameters bound to the `World` object. -/
structure World where
  /-- Parameter `volume`. -/
  volume : List Volume
  deriving DecidableEq, Repr

/-! ## The tables of `generateScene` -/

/-- The array `int4 cells[9]` (x,y,z: pos, w: level); the program does not use it. -/
def cells : List int4 :=
  [⟨0, 0, 0, 0⟩, ⟨1, 0, 0, 0⟩, ⟨1, 1, 0, 0⟩, ⟨0, 1, 0, 0⟩,
   ⟨0, 0, 1, 0⟩, ⟨1, 0, 1, 0⟩, ⟨1, 1, 1, 0⟩, ⟨0, 1, 1, 0⟩,
   ⟨2, 0, 0, 1⟩]

/-- The array `float data[9]`. -/
def data : List Rat :=
  [0, 1/2, 0, 1/2, 0, 1/2, 0, 1/2, 1]

/-- The vector `blockDims`. -/
def blockDims : List int3 := [⟨2, 2, 2⟩, ⟨1, 1, 1⟩]

/-- The vector `blockOffsets`; only the disabled `#if 0` branch reads it. -/
def blockOffsets : List Nat := [0, 8]

/-- The vector `blockStart`. -/
def blockStart : List int3 := [⟨0, 0, 0⟩, ⟨1, 0, 0⟩]

/-- The vector `blockLevel`. -/
def blockLevel : List Int := [0, 1]

/-- The vector `refinementRatio` (per level, not per block). -/
def refinementRatio : List Nat := [2, 2]

/-- The value of `sizeof(float)`. -/
def sizeofFloat : Nat := 4

/-! ## `generateScene` -/

/-- Lines 81-145 of `generateScene` with the block tables as parameters: the
field object is created, `block.level` and `refinementRatio` are bound as they
are, `block.bounds` is bound to the result of the bounds loop, `data` is bound
to the first `sizeof(data)/sizeof(data[0])` elements of the data array, and the
parameters are committed.  No other statement touches the field. -/
def makeField (levels : List Int) (ratios : List Nat) (starts dims : List int3)
    (values : List Rat) : Option SpatialField :=
  match boundsLoop starts dims with
  | none => none
  | some blockBounds =>
    some { subtype := "amr"
           blockLevel := levels
           refinementRatio := ratios
           blockBounds := blockBounds
           data := values.take ((values.length * sizeofFloat) / sizeofFloat) }

/-- Lines 149-175 of `generateScene`: the volume with its transfer function. -/
def makeVolume (field : SpatialField) : Volume :=
  let colors : List float3 := []
  let opacities : List Rat := []
  let colors := colors ++ [⟨0, 0, 1⟩]
  let colors := colors ++ [⟨0, 1, 0⟩]
  let colors := colors ++ [⟨1, 0, 0⟩]
  let colors := colors ++ [⟨1, 0, 0⟩]
  let opacities := opacities ++ [1/2]
  let opacities := opacities ++ [1]
  let voxelRange : float2 := ⟨0, 1⟩
  { subtype := "transferFunction1D"
    value := field
    color := colors
    opacity := opacities
    valueRange := voxelRange }

/-- The body of `generateScene` with the block tables as parameters. -/
def generateSceneWith (levels : List Int) (ratios : List Nat) (starts dims : List int3)
    (values : List Rat) : Option World :=
  match makeField levels ratios starts dims values with
  | none => none
  | some field => some { volume := [makeVolume field] }

/-- The function `generateScene` of the program. -/
def generateScene : Option World :=
  generateSceneWith blockLevel refinementRatio blockStart blockDims data

/-! ## `deviceHasExtension` -/

/-- The loop `for (; *extensions; extensions++)` of `deviceHasExtension` over the
array returned by `anariGetDeviceExtensions`: an entry is `none` for the null
pointer and `some s` for a pointer to the C string `s`.  The comparison
`*extensions == extName` is `operator==(const char*, const std::string&)`, which
compares contents.  Reading past the end of the array is `none`. -/
def deviceHasExtension : List (Option String) → String → Option Bool
  | [], _ => none
  | none :: _, _ => some false
  | some ext :: rest, extName =>
    if ext = extName then some true else deviceHasExtension rest extName

/-! ## `statusFunc` -/

/-- Modelled from the spec: the type `ANARIStatusSeverity`, declared in the ANARI
headers and not in the program, with the six severities that the backend
reports: FATAL, ERROR, WARNING, PERFORMANCE_WARNING, INFO, DEBUG. -/
inductive ANARIStatusSeverity where
  | FATAL_ERROR
  | ERROR
  | WARNING
  | PERFORMANCE_WARNING
  | INFO
  | DEBUG
  deriving DecidableEq, Repr

/-- One line written to `stderr` by `fprintf(stderr, "[TAG][%p] %s\n", source, message)`. -/
structure LogLine where
  tag : String
  source : Nat
  message : String
  deriving DecidableEq, Repr

/-- What a call of `statusFunc` does: the lines it writes to `stderr` and the
exit code if it terminates the process (`none` when it returns). -/
structure StatusEffect where
  stderr : List LogLine
  exit : Option Nat
  deriving DecidableEq, Repr

/-- The callback `statusFunc`. -/
def statusFunc (source : Nat) (severity : ANARIStatusSeverity) (message : String) :
    StatusEffect :=
  if severity = ANARIStatusSeverity.FATAL_ERROR then
    { stderr := [⟨"[FATAL]", source, message⟩], exit := some 1 }
  else if severity = ANARIStatusSeverity.ERROR then
    { stderr := [⟨"[ERROR]", source, message⟩], exit := none }
  else if severity = ANARIStatusSeverity.WARNING then
    { stderr := [⟨"[WARN ]", source, message⟩], exit := none }
  else if severity = ANARIStatusSeverity.PERFORMANCE_WARNING then
    { stderr := [⟨"[PERF ]", source, message⟩], exit := none }
  else
    { stderr := [], exit := none }

/-! ## Helper lemmas -/

/-- The box that the loop body writes for a start and a dims value. -/
def mkBox (s d : int3) : box3i := { lower := s, upper := s + d - int3.splat 1 }

theorem mkBox_lower (s d : int3) : (mkBox s d).lower = s := rfl

theorem mkBox_upper_x (s d : int3) : (mkBox s d).upper.x = s.x + d.x - 1 := rfl

theorem mkBox_upper_y (s d : int3) : (mkBox s d).upper.y = s.y + d.y - 1 := rfl

theorem mkBox_upper_z (s d : int3) : (mkBox s d).upper.z = s.z + d.z - 1 := rfl

theorem boundsLoop_upto (starts dims : List int3) (h : starts.length = dims.length)
    (init : List box3i) (hinit : init.length = dims.length) (k : Nat) (hk : k ≤ dims.length) :
    ∃ bs, (List.range k).foldl (boundsStep starts dims) (some init) = some bs ∧
      bs.length = dims.length ∧
      ∀ j, j < k → bs[j]? = Option.map₂ mkBox starts[j]? dims[j]? := by
  induction k with
  | zero => exact ⟨init, by simp, hinit, by simp⟩
  | succ k ih =>
    obtain ⟨bs, hbs, hlen, hpre⟩ := ih (by omega)
    have hs : k < starts.length := by omega
    have hd : k < dims.length := by omega
    refine ⟨bs.set k (mkBox starts[k] dims[k]), ?_, by simpa using hlen, ?_⟩
    · rw [List.range_succ, List.foldl_append, hbs]
      simp [boundsStep, List.getElem?_eq_getElem hs, List.getElem?_eq_getElem hd, mkBox]
    · intro j hj
      by_cases hjk : k = j
      · subst hjk
        simp [List.getElem?_set, hlen, hd, List.getElem?_eq_getElem hs,
          List.getElem?_eq_getElem hd]
      · rw [List.getElem?_set_ne hjk]
        exact hpre j (by omega)

theorem boundsLoop_eq (starts dims : List int3) (h : starts.length = dims.length) :
    boundsLoop starts dims = some (List.zipWith mkBox starts dims) := by
  obtain ⟨bs, hbs, hlen, hpre⟩ :=
    boundsLoop_upto starts dims h (List.replicate dims.length default) (by simp)
      dims.length (le_refl _)
  unfold boundsLoop
  rw [hbs]
  congr 1
  apply List.ext_getElem?
  intro j
  by_cases hj : j < dims.length
  · rw [hpre j hj, List.getElem?_zipWith]
    cases starts[j]? <;> cases dims[j]? <;> rfl
  · have h1 : bs.length ≤ j := by omega
    have h2 : (List.zipWith mkBox starts dims).length ≤ j := by
      simp [List.length_zipWith, h]; omega
    rw [List.getElem?_eq_none h1, List.getElem?_eq_none h2]

theorem zipWith_mkBox_getElem? (starts dims : List int3) (i : Nat) :
    (List.zipWith mkBox starts dims)[i]? = Option.map₂ mkBox starts[i]? dims[i]? := by
  rw [List.getElem?_zipWith]
  cases starts[i]? <;> cases dims[i]? <;> rfl

/-! ## The scene built by the program -/

/-- Claim C1 (as stated, refuted): the `block.bounds` array that `generateScene`
binds to the field is not `[((0,0,0),(1,1,1)), ((2,0,0),(2,0,0))]`. -/
theorem C1_bounds_not_as_claimed :
    (generateScene.map fun w => w.volume.map fun v => v.value.blockBounds) ≠
      some [[⟨⟨0, 0, 0⟩, ⟨1, 1, 1⟩⟩, ⟨⟨2, 0, 0⟩, ⟨2, 0, 0⟩⟩]] := by
  decide

/-- Claim C1 (amended): `generateScene` returns a world with one volume whose
field has `block.bounds = [((0,0,0),(1,1,1)), ((1,0,0),(1,0,0))]`,
`block.level = [0,1]` and a `data` array of length 9; the second (level-1) block
has start `(1,0,0)` and its box is `lower = upper = (1,0,0)`. -/
theorem C1_generateScene_field :
    ∃ w v, generateScene = some w ∧ w.volume = [v] ∧
      v.value.blockBounds = [⟨⟨0, 0, 0⟩, ⟨1, 1, 1⟩⟩, ⟨⟨1, 0, 0⟩, ⟨1, 0, 0⟩⟩] ∧
      v.value.blockLevel = [0, 1] ∧
      v.value.data.length = 9 ∧
      blockStart[1]? = some ⟨1, 0, 0⟩ ∧
      v.value.blockBounds[1]? = some ⟨⟨1, 0, 0⟩, ⟨1, 0, 0⟩⟩ := by
  refine ⟨_, _, rfl, rfl, ?_, ?_, ?_, ?_, ?_⟩ <;> decide

/-- Claim C2: for block starts and block dims of equal length the bounds loop
runs to completion and produces one box per block, in order; box `i` has
`lower = start_i` and `upper = start_i + dims_i - 1` on every axis, so that
`upper - lower + 1 = dims_i` on x, y and z. -/
theorem C2_boundsLoop_boxes (starts dims : List int3) (h : starts.length = dims.length) :
    ∃ bs, boundsLoop starts dims = some bs ∧ bs.length = dims.length ∧
      ∀ i, i < dims.length →
        ∃ b s d, bs[i]? = some b ∧ starts[i]? = some s ∧ dims[i]? = some d ∧
          b.lower = s ∧
          b.upper.x = s.x + d.x - 1 ∧ b.upper.y = s.y + d.y - 1 ∧ b.upper.z = s.z + d.z - 1 ∧
          b.upper.x - b.lower.x + 1 = d.x ∧
          b.upper.y - b.lower.y + 1 = d.y ∧
          b.upper.z - b.lower.z + 1 = d.z := by
  refine ⟨_, boundsLoop_eq starts dims h, by simp [List.length_zipWith, h], ?_⟩
  intro i hi
  have hs : i < starts.length := by omega
  refine ⟨mkBox starts[i] dims[i], starts[i], dims[i], ?_, List.getElem?_eq_getElem hs,
    List.getElem?_eq_getElem hi, rfl, ?_, ?_, ?_, ?_, ?_, ?_⟩
  · rw [zipWith_mkBox_getElem?, List.getElem?_eq_getElem hs, List.getElem?_eq_getElem hi]
    rfl
  all_goals
    simp only [mkBox_lower, mkBox_upper_x, mkBox_upper_y, mkBox_upper_z]
    try omega

/-- Witness for claim C2 at the block tables of the program. -/
theorem C2_boundsLoop_boxes_witness :
    blockStart.length = blockDims.length ∧
    ∃ bs, boundsLoop blockStart blockDims = some bs ∧ bs.length = blockDims.length ∧
      ∀ i, i < blockDims.length →
        ∃ b s d, bs[i]? = some b ∧ blockStart[i]? = some s ∧ blockDims[i]? = some d ∧
          b.lower = s ∧
          b.upper.x = s.x + d.x - 1 ∧ b.upper.y = s.y + d.y - 1 ∧ b.upper.z = s.z + d.z - 1 ∧
          b.upper.x - b.lower.x + 1 = d.x ∧
          b.upper.y - b.lower.y + 1 = d.y ∧
          b.upper.z - b.lower.z + 1 = d.z :=
  ⟨by decide, C2_boundsLoop_boxes blockStart blockDims (by decide)⟩

/-- Claim C3: the sum of `dims.x*dims.y*dims.z` over the block table of the
program is 9, the `data` array bound to the field has exactly 9 elements, and
the two numbers agree. -/
theorem C3_cellCount_sum_eq_data_length :
    ∃ w v, generateScene = some w ∧ w.volume = [v] ∧
      blockDims = [⟨2, 2, 2⟩, ⟨1, 1, 1⟩] ∧
      (blockDims.map cellCount).sum = 9 ∧
      v.value.data.length = 9 ∧
      (blockDims.map cellCount).sum = (v.value.data.length : Int) := by
  refine ⟨_, _, rfl, rfl, ?_, ?_, ?_, ?_⟩ <;> decide

/-- Claim C4: the block offsets of the program are contiguous in creation
order: there is one offset per block, the first is 0, each later one is the
previous offset plus the previous block's cell count, the last range ends at the
length of the data array, every range lies inside the data array, and the
ranges of two different blocks are disjoint. -/
theorem C4_blockOffsets_contiguous :
    blockOffsets.length = blockDims.length ∧
    blockOffsets[0]? = some 0 ∧
    (∀ i < blockDims.length - 1,
      ((blockOffsets.getD (i + 1) 0 : Nat) : Int) =
        (blockOffsets.getD i 0 : Nat) + cellCount (blockDims.getD i default)) ∧
    ((blockOffsets.getD (blockDims.length - 1) 0 : Nat) : Int) +
        cellCount (blockDims.getD (blockDims.length - 1) default) = (data.length : Int) ∧
    (∀ i < blockDims.length,
      ((blockOffsets.getD i 0 : Nat) : Int) + cellCount (blockDims.getD i default) ≤
        (data.length : Int)) ∧
    (∀ j < blockDims.length, ∀ i < j,
      ((blockOffsets.getD i 0 : Nat) : Int) + cellCount (blockDims.getD i default) ≤
        (blockOffsets.getD j 0 : Nat)) ∧
    (∃ w v, generateScene = some w ∧ w.volume = [v] ∧ v.value.data = data) := by
  exact ⟨by decide, by decide, by decide, by decide, by decide, by decide, _, _, rfl, rfl, rfl⟩

/-- Claim C5: in the field built by the program every entry of `block.level` is
a non-negative index smaller than the length of `refinementRatio`, and every
entry of `refinementRatio` is at least 1. -/
theorem C5_levels_have_ratios :
    ∃ w v, generateScene = some w ∧ w.volume = [v] ∧
      v.value.blockLevel = blockLevel ∧
      v.value.refinementRatio = refinementRatio ∧
      (∀ l ∈ v.value.blockLevel, 0 ≤ l ∧ l.toNat < v.value.refinementRatio.length) ∧
      (∀ r ∈ v.value.refinementRatio, 1 ≤ r) := by
  refine ⟨_, _, rfl, rfl, ?_, ?_, ?_, ?_⟩ <;> decide

/-- Claim C7: `generateScene` succeeds, and the volume it builds carries the
colours `[(0,0,1), (0,1,0), (1,0,0), (1,0,0)]` (four entries, the second red
kept), the opacities `[0.5, 1.0]` and the value range `(0, 1)`, whose minimum is
below its maximum. -/
theorem C7_transfer_function_stops :
    ∃ w v, generateScene = some w ∧ w.volume = [v] ∧
      v.subtype = "transferFunction1D" ∧
      v.color = [⟨0, 0, 1⟩, ⟨0, 1, 0⟩, ⟨1, 0, 0⟩, ⟨1, 0, 0⟩] ∧
      v.color.length = 4 ∧
      v.opacity = [1/2, 1] ∧
      v.valueRange = ⟨0, 1⟩ ∧
      v.valueRange.x < v.valueRange.y := by
  exact ⟨_, _, rfl, rfl, rfl, rfl, rfl, rfl, rfl, by decide⟩

/-! ## The status callback -/

/-- Claim C8: `statusFunc` terminates the process exactly for severity FATAL,
with exit code 1 after one log line; for ERROR, WARNING and PERFORMANCE_WARNING
it writes one log line and returns; for INFO and DEBUG it writes nothing and
returns. -/
theorem C8_statusFunc_exits_iff_fatal (source : Nat) (message : String) :
    (∀ severity, (statusFunc source severity message).exit ≠ none ↔
        severity = ANARIStatusSeverity.FATAL_ERROR) ∧
    (∀ severity, (statusFunc source severity message).exit = some 1 ↔
        severity = ANARIStatusSeverity.FATAL_ERROR) ∧
    statusFunc source ANARIStatusSeverity.FATAL_ERROR message =
      { stderr := [⟨"[FATAL]", source, message⟩], exit := some 1 } ∧
    statusFunc source ANARIStatusSeverity.ERROR message =
      { stderr := [⟨"[ERROR]", source, message⟩], exit := none } ∧
    statusFunc source ANARIStatusSeverity.WARNING message =
      { stderr := [⟨"[WARN ]", source, message⟩], exit := none } ∧
    statusFunc source ANARIStatusSeverity.PERFORMANCE_WARNING message =
      { stderr := [⟨"[PERF ]", source, message⟩], exit := none } ∧
    statusFunc source ANARIStatusSeverity.INFO message = { stderr := [], exit := none } ∧
    statusFunc source ANARIStatusSeverity.DEBUG message = { stderr := [], exit := none } := by
  refine ⟨?_, ?_, rfl, rfl, rfl, rfl, rfl, rfl⟩
  · intro severity
    cases severity <;> simp [statusFunc]
  · intro severity
    cases severity <;> simp [statusFunc]

/-! ## The extension query -/

/-- Claim C9: on an array that holds the names `exts`, then the null
terminator, then anything, `deviceHasExtension` returns a result, and the
result is `true` exactly when some name of `exts` equals the query name; on an
array that starts with the terminator the result is `false`. -/
theorem C9_deviceHasExtension_iff_mem (exts : List String) (rest : List (Option String))
    (extName : String) :
    (∃ b, deviceHasExtension (exts.map some ++ none :: rest) extName = some b ∧
      (b = true ↔ ∃ e ∈ exts, e = extName)) ∧
    deviceHasExtension (none :: rest) extName = some false := by
  refine ⟨?_, rfl⟩
  induction exts with
  | nil => exact ⟨false, rfl, by simp⟩
  | cons e es ih =>
    obtain ⟨b, hb, hiff⟩ := ih
    by_cases he : e = extName
    · exact ⟨true, by simp [deviceHasExtension, he], by simp [he]⟩
    · refine ⟨b, by simpa [deviceHasExtension, he] using hb, ?_⟩
      rw [hiff]
      constructor
      · rintro ⟨x, hx, hxe⟩
        exact ⟨x, List.mem_cons_of_mem e hx, hxe⟩
      · rintro ⟨x, hx, hxe⟩
        rcases List.mem_cons.mp hx with hxe2 | hxs
        · exact absurd (hxe2 ▸ hxe) he
        · exact ⟨x, hxs, hxe⟩

/-! ## Non-empty boxes -/

end AmrSample
